import Mathlib

/-!
Verification development for the quickset repository: a shallow embedding in
Lean 4 of the parts of the source relevant to the checked properties, together
with theorems settling each claim.

Sources embedded:
  - src/sync/source.rs     (SyncTable, ColumnMapping, SourceError, FetchResult)
  - src/sync/clickhouse.rs (parse_value, parse_response)
  - src/sync/manager.rs    (SyncStatus, SyncResult, SyncConfig, sync_table,
                            sync_all, update_status)
  - src/query.rs           (ColumnDef.to_column_type, JsonValue conversions)
  - src/http.rs            (handle_create_table, the search pagination step of
                            handle_search, handle_sync_trigger)

The crates `crate::storage` (Value) and `crate::table` (ColumnType, Column,
Table, Database) are declared and called throughout the sources above but their
defining module is not among the provided files; their data model and the
operations used by the embedded code are modelled from the specification
(sections 3, 4.4 and 4.5), with doc comments marking each such definition.

Machine-level details abstracted: wall-clock time (Instant / Duration fields
are carried but frozen at zero, last_sync becomes Option Unit), the f64 payload
of Value::Float is carried as its 64-bit pattern (a Nat) since the embedded
code only moves it, and the std string-to-number parsers (str::parse::<i64>,
str::parse::<f64>) are passed in as explicit function parameters.
-/

namespace Quickset

/-- Decidable equality for `Except`, used to evaluate the embedded fallible
operations on concrete inputs. -/
instance {ε α : Type} [DecidableEq ε] [DecidableEq α] :
    DecidableEq (Except ε α) := fun a b =>
  match a, b with
  | Except.ok x, Except.ok y =>
    if h : x = y then Decidable.isTrue (congrArg Except.ok h)
    else Decidable.isFalse (fun hh => h (Except.ok.inj hh))
  | Except.error x, Except.error y =>
    if h : x = y then Decidable.isTrue (congrArg Except.error h)
    else Decidable.isFalse (fun hh => h (Except.error.inj hh))
  | Except.ok _, Except.error _ => Decidable.isFalse (fun hh => Except.noConfusion hh)
  | Except.error _, Except.ok _ => Decidable.isFalse (fun hh => Except.noConfusion hh)

/-- Modelled from the spec: `ColumnType` from `crate::table` (spec section 3),
the four declared column types. The defining module is not in src. -/
inductive ColumnType
  | int
  | float
  | str
  | bytes
deriving DecidableEq, Repr

/-- Modelled from the spec: `Value` from `crate::storage` (spec section 3), the
tagged scalar union `{Null, Int, Float, String, Bytes}`. The Float payload is
its IEEE-754 bit pattern, carried as a Nat: none of the embedded code performs
float arithmetic, it only copies the payload. Bytes is a list of byte values.
The defining module is not in src. -/
inductive Value
  | null
  | int (i : Int)
  | float (bits : Nat)
  | str (s : String)
  | bytes (b : List Nat)
deriving DecidableEq, Repr

/-- Modelled from the spec: `Column` from `crate::table` (spec section 3):
a name and a declared type. -/
structure Column where
  name : String
  col_type : ColumnType
deriving DecidableEq, Repr

/-- `ColumnMapping` from src/sync/source.rs lines 8-12. -/
structure ColumnMapping where
  source_name : String
  target_name : String
  col_type : ColumnType
deriving DecidableEq, Repr

/-- `SyncTable` from src/sync/source.rs lines 16-21. -/
structure SyncTable where
  source_table : String
  target_table : String
  columns : List ColumnMapping
  query_override : Option String
deriving DecidableEq, Repr

/-- `SourceError` from src/sync/source.rs lines 89-94. -/
inductive SourceError
  | connection (s : String)
  | query (s : String)
  | parse (s : String)
  | config (s : String)
deriving DecidableEq, Repr

/-- The `Display` rendering of `SourceError` (src/sync/source.rs lines 96-105),
as consumed by `e.to_string()` in the sync manager. -/
def SourceError.to_string : SourceError → String
  | .connection s => "connection error: " ++ s
  | .query s => "query error: " ++ s
  | .parse s => "parse error: " ++ s
  | .config s => "config error: " ++ s

/-- `FetchResult` from src/sync/source.rs lines 82-85. -/
structure FetchResult where
  rows : List (List Value)
  row_count : Nat
deriving DecidableEq, Repr

/-!
## ClickHouse source binding: src/sync/clickhouse.rs

`parse_value` (lines 124-154) delegates integer and float parsing to
`str::parse::<i64>` / `str::parse::<f64>`; those std parsers enter the
embedding as the explicit parameters `pI` and `pF` (a failed parse is `none`).
-/

/-!
The std string primitives the source leans on — `str::trim`, `split`,
`to_lowercase`, `str::replace` — are re-implemented here structurally over the
character list of a string, so that every embedded function evaluates inside
the kernel. Each matches the Rust primitive on the inputs the embedded code
feeds it (the type-alias alphabet and tab-separated response lines are ASCII).
-/

/-- `str::trim`: strip leading and trailing whitespace. -/
def strTrim (s : String) : String :=
  String.mk (((s.data.dropWhile Char.isWhitespace).reverse.dropWhile
    Char.isWhitespace).reverse)

/-- `str::split(c)` on a single separator character: every occurrence splits,
empty segments are kept, the empty string yields one empty segment. -/
def splitChar (c : Char) : List Char → List (List Char)
  | [] => [[]]
  | x :: xs =>
    if x = c then [] :: splitChar c xs
    else
      match splitChar c xs with
      | [] => [[x]]
      | g :: gs => (x :: g) :: gs

/-- `str::split` lifted to strings. -/
def strSplit (s : String) (c : Char) : List String :=
  (splitChar c s.data).map String.mk

/-- `str::to_lowercase`, which on the ASCII alias alphabet is per-character
ASCII lowercasing. -/
def strLower (s : String) : String :=
  String.mk (s.data.map Char.toLower)

/-- One fueled pass of `str::replace` over a character list: wherever the
(non-empty) pattern is a prefix, it is consumed and the replacement emitted.
The fuel, instantiated with the list length, makes the recursion structural;
one unit is consumed per emitted position, so the fuel never runs out. -/
def replaceFuel (pat rep : List Char) : Nat → List Char → List Char
  | _, [] => []
  | 0, l => l
  | fuel + 1, x :: xs =>
    if pat.isPrefixOf (x :: xs) ∧ pat ≠ [] then
      rep ++ replaceFuel pat rep fuel (xs.drop (pat.length - 1))
    else x :: replaceFuel pat rep fuel xs

/-- `str::replace(pat, rep)` on strings. -/
def strReplace (s pat rep : String) : String :=
  String.mk (replaceFuel pat.data rep.data s.data.length s.data)

/-- The string unescaping inside `parse_value` for String columns
(src/sync/clickhouse.rs lines 144-147): the three sequential `replace` calls. -/
def unescape_ch (s : String) : String :=
  strReplace (strReplace (strReplace s "\\t" "\t") "\\n" "\n") "\\\\" "\\"

/-- The UTF-8 bytes of a string, as in `s.as_bytes().to_vec()`
(src/sync/clickhouse.rs line 151). -/
def strBytes (s : String) : List Nat :=
  s.toUTF8.toList.map (fun b => b.toNat)

/-- `ClickHouseSource::parse_value` (src/sync/clickhouse.rs lines 124-154).
`pI` and `pF` are the std parsers for i64 and f64 respectively. -/
def parse_value (pI : String → Option Int) (pF : String → Option Nat)
    (s : String) (col_type : ColumnType) : Value :=
  if strTrim s = "" ∨ strTrim s = "\\N" ∨ strTrim s = "NULL" then Value.null
  else
    match col_type with
    | .int => (pI (strTrim s)).elim Value.null Value.int
    | .float => (pF (strTrim s)).elim Value.null Value.float
    | .str => Value.str (unescape_ch (strTrim s))
    | .bytes => Value.bytes (strBytes (strTrim s))

/-- The lines of a response as iterated by `response.lines()`
(src/sync/clickhouse.rs line 160). Rust strips a trailing carriage return and
drops a trailing empty segment; both are subsumed here by the `trim` and the
empty-line skip that `parse_response` applies to every line. -/
def linesOf (response : String) : List String :=
  strSplit response '\n'

/-- One iteration of the loop body of `ClickHouseSource::parse_response`
(src/sync/clickhouse.rs lines 160-189): `none` means the line was skipped as
empty, `some row` a parsed row, `Except.error` a parse failure. The inner
`if table.columns.is_empty()` branch is kept exactly as written in the source
even though its guard can never hold under the enclosing condition. -/
def parse_line (pI : String → Option Int) (pF : String → Option Nat)
    (tbl : SyncTable) (line : String) :
    Except SourceError (Option (List Value)) :=
  if strTrim line = "" then Except.ok none
  else if (strSplit (strTrim line) '\t').length ≠ tbl.columns.length ∧
          tbl.columns ≠ [] then
    if tbl.columns = [] then
      Except.ok (some ((strSplit (strTrim line) '\t').map
        (fun f => Value.str f)))
    else
      Except.error (SourceError.parse
        ("column count mismatch: expected " ++ toString tbl.columns.length ++
         ", got " ++ toString (strSplit (strTrim line) '\t').length))
  else
    Except.ok (some (((strSplit (strTrim line) '\t').zip tbl.columns).map
      (fun fc => parse_value pI pF fc.1 fc.2.col_type)))

/-- The loop of `parse_response` over the response lines, accumulating rows in
order and aborting on the first parse failure. -/
def parse_lines (pI : String → Option Int) (pF : String → Option Nat)
    (tbl : SyncTable) : List String → Except SourceError (List (List Value))
  | [] => Except.ok []
  | l :: ls =>
    match parse_line pI pF tbl l with
    | Except.error e => Except.error e
    | Except.ok none => parse_lines pI pF tbl ls
    | Except.ok (some row) =>
      match parse_lines pI pF tbl ls with
      | Except.error e => Except.error e
      | Except.ok rows => Except.ok (row :: rows)

/-- `ClickHouseSource::parse_response` (src/sync/clickhouse.rs lines 157-192). -/
def parse_response (pI : String → Option Int) (pF : String → Option Nat)
    (response : String) (tbl : SyncTable) :
    Except SourceError (List (List Value)) :=
  parse_lines pI pF tbl (linesOf response)

/-!
## Wire values: src/query.rs
-/

/-- `JsonValue` from src/query.rs lines 73-79, the untagged wire
representation. Payloads are modelled exactly as in `Value`. -/
inductive JsonValue
  | null
  | int (i : Int)
  | float (bits : Nat)
  | str (s : String)
  | bytes (b : List Nat)
deriving DecidableEq, Repr

/-- `JsonValue::to_value` (src/query.rs lines 82-90). `String::into_boxed_str`
and `Vec::into_boxed_slice` only move ownership, so they are the identity on
content. -/
def JsonValue.to_value : JsonValue → Value
  | .null => Value.null
  | .int i => Value.int i
  | .float f => Value.float f
  | .str s => Value.str s
  | .bytes b => Value.bytes b

/-- `From<&Value> for JsonValue` (src/query.rs lines 93-103). `to_string` on a
boxed str and `to_vec` on boxed bytes copy content unchanged. -/
def JsonValue.fromValue : Value → JsonValue
  | Value.null => JsonValue.null
  | Value.int i => JsonValue.int i
  | Value.float f => JsonValue.float f
  | Value.str s => JsonValue.str s
  | Value.bytes b => JsonValue.bytes b

/-- `ColumnDef` from src/query.rs lines 13-17: a requested column, with its
type still a raw string. -/
structure ColumnDef where
  name : String
  col_type : String
deriving DecidableEq, Repr

/-- The string match inside `ColumnDef::to_column_type` (src/query.rs lines
21-27), applied to the already-lowercased type name. -/
def typeOfName : String → Option ColumnType
  | "int" | "integer" | "i64" => some ColumnType.int
  | "float" | "double" | "f64" => some ColumnType.float
  | "string" | "text" | "varchar" => some ColumnType.str
  | "bytes" | "blob" | "binary" => some ColumnType.bytes
  | _ => none

/-- `ColumnDef::to_column_type` (src/query.rs lines 20-28). Rust
`str::to_lowercase` agrees with per-character ASCII lowercasing on every
string whose lowercase could match one of the ASCII alias names. -/
def ColumnDef.to_column_type (c : ColumnDef) : Option ColumnType :=
  typeOfName (strLower c.col_type)

/-!
## Table and Database: modelled from the spec

`crate::table` is not among the provided source files; the operations the
embedded code calls on it are modelled from spec sections 3, 4.4 and 4.5.
-/

/-- Modelled from the spec: `type_matches` (spec section 4.1) — `Null` or an
exact variant match. -/
def type_matches (v : Value) (t : ColumnType) : Bool :=
  match v, t with
  | Value.null, _ => true
  | Value.int _, ColumnType.int => true
  | Value.float _, ColumnType.float => true
  | Value.str _, ColumnType.str => true
  | Value.bytes _, ColumnType.bytes => true
  | _, _ => false

/-- Modelled from the spec: a `Table` (spec section 3) — its immutable column
descriptors, the live rows as (RowId, values) pairs in insertion order, and the
next-RowId counter (RowId 0 is reserved, so a fresh table starts at 1). Slots,
tombstones and the per-column indexes play no part in the claims settled here
and are omitted. -/
structure Table where
  columns : List Column
  rows : List (Nat × List Value)
  next_id : Nat
deriving DecidableEq, Repr

/-- Modelled from the spec: `Table::insert` (spec section 4.4) — arity must
equal the column count (`ArityMismatch` otherwise), every value must satisfy
`type_matches` (`TypeMismatch` otherwise); on success the next RowId is
assigned and the counter advances. -/
def Table.insert (t : Table) (vals : List Value) :
    Except String (Nat × Table) :=
  if vals.length ≠ t.columns.length then Except.error "arity mismatch"
  else if ¬ ((vals.zip t.columns).all (fun vc => type_matches vc.1 vc.2.col_type)) then
    Except.error "type mismatch"
  else
    Except.ok (t.next_id,
      { t with rows := t.rows ++ [(t.next_id, vals)], next_id := t.next_id + 1 })

/-- Lookup in an association list keyed by strings, the model of the map
lookups on `Database` tables and on the sync-status map. -/
def assocFind {α : Type} : List (String × α) → String → Option α
  | [], _ => none
  | p :: rest, name => if p.1 = name then some p.2 else assocFind rest name

/-- Modelled from the spec: a `Database` (spec sections 3 and 4.5), a mapping
from table name to table, carried as an association list. -/
structure Database where
  tables : List (String × Table)
deriving DecidableEq, Repr

/-- Modelled from the spec: `Database::get_table` / `get_table_mut`
(spec section 4.5) — both resolve the same name lookup. -/
def Database.get_table (db : Database) (name : String) : Option Table :=
  assocFind db.tables name

/-- Modelled from the spec: `Database::create_table_with_capacity`
(spec section 4.5) — creating a duplicate name fails; the capacity is an
optimization hint with identical semantics, so it is ignored beyond being
accepted. -/
def Database.create_table_with_capacity (db : Database) (name : String)
    (cols : List Column) (_capacity : Nat) : Except String Database :=
  if (Database.get_table db name).isSome then Except.error "table already exists"
  else Except.ok ⟨db.tables ++ [(name, ⟨cols, [], 1⟩)]⟩

/-- Modelled from the spec: `Database::create_table` (spec section 4.5),
identical to the capacity variant apart from the hint. -/
def Database.create_table (db : Database) (name : String)
    (cols : List Column) : Except String Database :=
  Database.create_table_with_capacity db name cols 0

/-- Modelled from the spec: `Database::drop_table` (spec section 4.5) — true
iff the name existed; the entry is removed. -/
def Database.drop_table (db : Database) (name : String) : Bool × Database :=
  ((Database.get_table db name).isSome,
   ⟨db.tables.filter (fun p => ¬ (p.1 = name))⟩)

/-- Writing back a table obtained through `get_table_mut` after in-place
mutation: the entry for the name is replaced. -/
def Database.set_table (db : Database) (name : String) (t : Table) : Database :=
  ⟨db.tables.map (fun p => if p.1 = name then (p.1, t) else p)⟩

/-!
## Sync manager: src/sync/manager.rs

Wall-clock time is not modelled: `last_sync` carries `Option Unit` in place of
`Option Instant`, and the duration fields are frozen at zero. The bound
`Box<dyn Source>` enters as an explicit function `fetch` (its `fetch_table`
method); the `sync_count` atomic and the background thread play no part in the
claims settled here.
-/

/-- `SyncStatus` from src/sync/manager.rs lines 16-23. -/
structure SyncStatus where
  table : String
  last_sync : Option Unit
  last_row_count : Nat
  last_duration_ms : Nat
  error : Option String
  syncing : Bool
deriving DecidableEq, Repr

/-- `SyncResult` from src/sync/manager.rs lines 27-33. -/
structure SyncResult where
  table : String
  success : Bool
  rows_synced : Nat
  duration_ms : Nat
  error : Option String
deriving DecidableEq, Repr

/-- `SyncConfig` from src/sync/manager.rs lines 37-42. -/
structure SyncConfig where
  enabled : Bool
  interval_secs : Nat
  tables : List SyncTable
  clear_before_sync : Bool

/-- The mutable status map of the `SyncManager`, target table name to status. -/
def StatusMap : Type := List (String × SyncStatus)

/-- The status initialization in `SyncManager::new`
(src/sync/manager.rs lines 87-99). -/
def init_status (tables : List SyncTable) : StatusMap :=
  tables.map (fun t =>
    (t.target_table, ⟨t.target_table, none, 0, 0, none, false⟩))

/-- The mark-as-syncing step at the top of `sync_table`
(src/sync/manager.rs lines 118-123): if a status entry exists for the target,
set `syncing` and clear the error. -/
def mark_syncing (st : StatusMap) (target : String) : StatusMap :=
  st.map (fun p =>
    if p.1 = target then (p.1, { p.2 with syncing := true, error := none })
    else p)

/-- `SyncManager::update_status` (src/sync/manager.rs lines 287-297): if a
status entry exists for the table, overwrite `last_sync`, `last_row_count`,
`last_duration_ms`, `error` and clear `syncing`. The duration argument is
dropped along with wall-clock time. -/
def update_status (st : StatusMap) (table : String) (rows : Nat)
    (error : Option String) : StatusMap :=
  st.map (fun p =>
    if p.1 = table then
      (p.1, { p.2 with last_sync := some (), last_row_count := rows,
                       last_duration_ms := 0, error := error, syncing := false })
    else p)

/-- The row-insertion loop of `sync_table` (src/sync/manager.rs lines
195-200): insert each fetched row, count the successes, tolerate per-row
failures. -/
def insert_rows (t : Table) : List (List Value) → Table × Nat
  | [] => (t, 0)
  | r :: rs =>
    match Table.insert t r with
    | Except.ok idt =>
      let out := insert_rows idt.2 rs
      (out.1, out.2 + 1)
    | Except.error _ => insert_rows t rs

/-- The tail of `sync_table` after the optional clear-and-recreate
(src/sync/manager.rs lines 176-215): look up the target table (failure
"table not found after creation" if absent), insert the fetched rows, record
a successful status. -/
def sync_insert_phase (st1 : StatusMap) (target : String)
    (fetched : List (List Value)) (db : Database) :
    SyncResult × Database × StatusMap :=
  match Database.get_table db target with
  | none =>
    let msg := "table not found after creation"
    (⟨target, false, 0, 0, some msg⟩, db, update_status st1 target 0 (some msg))
  | some t0 =>
    let out := insert_rows t0 fetched
    (⟨target, true, out.2, 0, none⟩,
     Database.set_table db target out.1,
     update_status st1 target out.2 none)

/-- `SyncManager::sync_table` (src/sync/manager.rs lines 111-215). The
database handle is threaded explicitly; every early return carries the
database state as mutated so far, exactly as the shared `&Arc<RwLock<_>>`
does in the source. -/
def sync_table (cfg : SyncConfig)
    (fetch : SyncTable → Except SourceError FetchResult)
    (table : SyncTable) (db : Database) (st : StatusMap) :
    SyncResult × Database × StatusMap :=
  let target := table.target_table
  let st1 := mark_syncing st target
  match fetch table with
  | Except.error e =>
    let msg := SourceError.to_string e
    (⟨target, false, 0, 0, some msg⟩, db, update_status st1 target 0 (some msg))
  | Except.ok fr =>
    if cfg.clear_before_sync then
      let db2 := (Database.drop_table db target).2
      let cols := table.columns.map
        (fun c => ({ name := c.target_name, col_type := c.col_type } : Column))
      match Database.create_table_with_capacity db2 target cols fr.row_count with
      | Except.error e =>
        let msg := "failed to create table: " ++ e
        (⟨target, false, 0, 0, some msg⟩, db2,
         update_status st1 target 0 (some msg))
      | Except.ok db3 => sync_insert_phase st1 target fr.rows db3
    else sync_insert_phase st1 target fr.rows db

/-- The iteration of `SyncManager::sync_all` over the configured tables
(src/sync/manager.rs lines 218-222), threading the shared database and status
map left to right. -/
def sync_all_go (cfg : SyncConfig)
    (fetch : SyncTable → Except SourceError FetchResult) :
    List SyncTable → Database → StatusMap →
    List SyncResult × Database × StatusMap
  | [], db, st => ([], db, st)
  | t :: ts, db, st =>
    let out := sync_table cfg fetch t db st
    let rest := sync_all_go cfg fetch ts out.2.1 out.2.2
    (out.1 :: rest.1, rest.2)

/-- `SyncManager::sync_all` (src/sync/manager.rs lines 218-222). -/
def sync_all (cfg : SyncConfig)
    (fetch : SyncTable → Except SourceError FetchResult)
    (db : Database) (st : StatusMap) :
    List SyncResult × Database × StatusMap :=
  sync_all_go cfg fetch cfg.tables db st

/-!
## HTTP-facing operations: src/http.rs
-/

/-- `CreateTableRequest` from src/query.rs lines 6-10. -/
structure CreateTableRequest where
  name : String
  columns : List ColumnDef
  capacity : Option Nat

/-- The `collect::<Option<Vec<_>>>` idiom of src/http.rs line 436: map every
element, failing as a whole as soon as one maps to `None`. -/
def collectOpt {α β : Type} (f : α → Option β) : List α → Option (List β)
  | [] => some []
  | a :: l =>
    match f a with
    | none => none
    | some b => (collectOpt f l).map (fun bs => b :: bs)

/-- `handle_create_table` (src/http.rs lines 425-452): resolve every declared
column type (rejecting the whole request with "invalid column type" if any is
unknown, before the database is touched), then create the table, with or
without the capacity hint. The pair carries the response outcome and the
database afterwards. -/
def handle_create_table (req : CreateTableRequest) (db : Database) :
    Except String Unit × Database :=
  match collectOpt (fun c =>
      (ColumnDef.to_column_type c).map
        (fun ct => ({ name := c.name, col_type := ct } : Column)))
      req.columns with
  | none => (Except.error "invalid column type", db)
  | some cols =>
    match (match req.capacity with
           | some cap => Database.create_table_with_capacity db req.name cols cap
           | none => Database.create_table db req.name cols) with
    | Except.ok db2 => (Except.ok (), db2)
    | Except.error e => (Except.error e, db)

/-- The pagination step of `handle_search` (src/http.rs lines 569-579): a
supplied offset keeps the slice from `offset` on when it is in range and
clears the list otherwise; a supplied limit then truncates. -/
def paginate (row_ids : List Nat) (offset : Option Nat) (lim : Option Nat) :
    List Nat :=
  let ids := match offset with
    | some off => if off < row_ids.length then row_ids.drop off else []
    | none => row_ids
  match lim with
  | some l => ids.take l
  | none => ids

/-- `handle_sync_trigger` (src/http.rs lines 748-792): with a table name in
the request, run `sync_all` over every configured table and filter only the
reported results to the named table; with no name, run `sync_all` and report
everything. The database and status map come back as `sync_all` leaves them. -/
def handle_sync_trigger (cfg : SyncConfig)
    (fetch : SyncTable → Except SourceError FetchResult)
    (req_table : Option String) (db : Database) (st : StatusMap) :
    List SyncResult × Database × StatusMap :=
  match req_table with
  | some name =>
    let out := sync_all cfg fetch db st
    (out.1.filter (fun r => r.table = name), out.2)
  | none => sync_all cfg fetch db st

/-!
## Concrete instances used to evaluate the theorems on closed inputs
-/

/-- A std parser stub that accepts no integer. -/
def noInt : String → Option Int := fun _ => none

/-- A std parser stub that accepts no float. -/
def noFloat : String → Option Nat := fun _ => none

/-- A sync descriptor with an empty column mapping. -/
def mappingEmptyTbl : SyncTable := ⟨"s", "t", [], none⟩

/-- A sync descriptor mapping a single Int column onto target table "t". -/
def oneIntColTbl : SyncTable := ⟨"src_t", "t", [⟨"x", "x", ColumnType.int⟩], none⟩

/-- A sync configuration with the single table `oneIntColTbl` and the default
`clear_before_sync = true`. -/
def cfgOneTable : SyncConfig := ⟨true, 0, [oneIntColTbl], true⟩

/-- A source whose fetch returns two Int rows. -/
def fetchTwoRows : SyncTable → Except SourceError FetchResult :=
  fun _ => Except.ok ⟨[[Value.int 1], [Value.int 2]], 2⟩

/-- A source whose fetch fails with a connection error. -/
def fetchConnErr : SyncTable → Except SourceError FetchResult :=
  fun _ => Except.error (SourceError.connection "down")

/-- An empty database. -/
def emptyDb : Database := ⟨[]⟩

/-- A sync descriptor mapping one Int column onto target table "a". -/
def aSyncTbl : SyncTable := ⟨"sa", "a", [⟨"x", "x", ColumnType.int⟩], none⟩

/-- A sync descriptor mapping one Int column onto target table "b". -/
def bSyncTbl : SyncTable := ⟨"sb", "b", [⟨"x", "x", ColumnType.int⟩], none⟩

/-- A sync configuration over the two tables "a" and "b". -/
def cfgTwoTables : SyncConfig := ⟨true, 0, [aSyncTbl, bSyncTbl], true⟩

/-- A source whose fetch succeeds with zero rows. -/
def fetchNoRows : SyncTable → Except SourceError FetchResult :=
  fun _ => Except.ok ⟨[], 0⟩

/-- A database in which target table "b" already holds one row, as after a
prior successful sync. -/
def dbWithB : Database :=
  ⟨[("b", ⟨[⟨"x", ColumnType.int⟩], [(1, [Value.int 7])], 2⟩)]⟩

/-- A create-table request declaring an unknown column type name. -/
def badTypeReq : CreateTableRequest := ⟨"t", [⟨"a", "wat"⟩], none⟩

/-- The twelve accepted type alias names of `ColumnDef::to_column_type`. -/
def typeAliases : List String :=
  ["int", "integer", "i64", "float", "double", "f64",
   "string", "text", "varchar", "bytes", "blob", "binary"]

/-!
## Helper lemmas
-/

/-- Looking a key up after filtering that key out finds nothing. -/
theorem assocFind_filter_self {α : Type} (l : List (String × α)) (name : String) :
    assocFind (l.filter (fun p => ¬ (p.1 = name))) name = none := by
  induction l with
  | nil => rfl
  | cons p rest ih =>
    by_cases h : p.1 = name
    · simpa [List.filter, h] using ih
    · simpa [List.filter, h, assocFind] using ih

/-- Appending an entry for an absent key makes it findable. -/
theorem assocFind_append_some {α : Type} (l : List (String × α)) (name : String)
    (x : α) (h : assocFind l name = none) :
    assocFind (l ++ [(name, x)]) name = some x := by
  induction l with
  | nil => simp [assocFind]
  | cons p rest ih =>
    simp only [assocFind] at h
    by_cases hp : p.1 = name
    · rw [if_pos hp] at h
      cases h
    · rw [if_neg hp] at h
      simp only [List.cons_append, assocFind, if_neg hp]
      exact ih h

/-- A `parse_line` failure can only arise from a trimmed non-empty line whose
tab-separated field count differs from a non-empty column mapping, and it is
always a Parse error. -/
theorem parse_line_error_shape (pI : String → Option Int)
    (pF : String → Option Nat) (tbl : SyncTable) (l : String) (e : SourceError)
    (h : parse_line pI pF tbl l = Except.error e) :
    tbl.columns ≠ [] ∧ strTrim l ≠ "" ∧
    (strSplit (strTrim l) '\t').length ≠ tbl.columns.length ∧
    ∃ m, e = SourceError.parse m := by
  rw [parse_line] at h
  by_cases c1 : strTrim l = ""
  · rw [if_pos c1] at h
    cases h
  · rw [if_neg c1] at h
    by_cases c2 : (strSplit (strTrim l) '\t').length ≠ tbl.columns.length ∧
        tbl.columns ≠ []
    · rw [if_pos c2] at h
      rw [if_neg c2.2] at h
      exact ⟨c2.2, c1, c2.1, _, (Except.error.inj h).symm⟩
    · rw [if_neg c2] at h
      cases h

/-- A `parse_lines` failure comes from some line failing as in
`parse_line_error_shape`. -/
theorem parse_lines_error_shape (pI : String → Option Int)
    (pF : String → Option Nat) (tbl : SyncTable) (ls : List String)
    (e : SourceError) (h : parse_lines pI pF tbl ls = Except.error e) :
    tbl.columns ≠ [] ∧ ∃ l ∈ ls, strTrim l ≠ "" ∧
      (strSplit (strTrim l) '\t').length ≠ tbl.columns.length ∧
      ∃ m, e = SourceError.parse m := by
  induction ls with
  | nil => cases h
  | cons l ls ih =>
    rw [parse_lines] at h
    cases hl : parse_line pI pF tbl l with
    | error e2 =>
      rw [hl] at h
      cases h
      have := parse_line_error_shape pI pF tbl l e hl
      exact ⟨this.1, l, List.mem_cons_self l ls, this.2⟩
    | ok row =>
      rw [hl] at h
      cases row with
      | none =>
        have := ih h
        exact ⟨this.1, by
          obtain ⟨l2, hmem, hrest⟩ := this.2
          exact ⟨l2, List.mem_cons_of_mem l hmem, hrest⟩⟩
      | some r =>
        cases hr : parse_lines pI pF tbl ls with
        | error e2 =>
          rw [hr] at h
          cases h
          have := ih hr
          exact ⟨this.1, by
            obtain ⟨l2, hmem, hrest⟩ := this.2
            exact ⟨l2, List.mem_cons_of_mem l hmem, hrest⟩⟩
        | ok rows =>
          rw [hr] at h
          cases h

/-- A lowercased type name outside the twelve aliases resolves to no column
type. -/
theorem typeOfName_eq_none (w : String) (hw : w ∉ typeAliases) :
    typeOfName w = none := by
  simp only [typeAliases, List.mem_cons, List.not_mem_nil, or_false] at hw
  push_neg at hw
  obtain ⟨h1, h2, h3, h4, h5, h6, h7, h8, h9, h10, h11, h12⟩ := hw
  unfold typeOfName
  split <;> simp_all

/-- `collectOpt` fails as soon as any element maps to `none`. -/
theorem collectOpt_eq_none {α β : Type} (f : α → Option β) (l : List α)
    (h : ∃ c ∈ l, f c = none) : collectOpt f l = none := by
  induction l with
  | nil => simp at h
  | cons a l ih =>
    obtain ⟨c, hc, hfc⟩ := h
    rcases List.mem_cons.mp hc with h1 | h2
    · subst h1
      simp [collectOpt, hfc]
    · cases hfa : f a <;>
        simp [collectOpt, hfa, ih ⟨c, h2, hfc⟩]

/-- Whatever `update_status` leaves findable under the updated key carries the
written row count and error and has `syncing` cleared. -/
theorem assocFind_update_status (st : StatusMap) (table : String) (rows : Nat)
    (err : Option String) (s : SyncStatus)
    (h : assocFind (update_status st table rows err) table = some s) :
    s.last_row_count = rows ∧ s.error = err ∧ s.syncing = false := by
  induction st with
  | nil => cases h
  | cons p rest ih =>
    rw [update_status, List.map_cons] at h
    by_cases hp : p.1 = table
    · rw [if_pos hp] at h
      simp only [assocFind, hp, if_pos rfl] at h
      cases h
      exact ⟨rfl, rfl, rfl⟩
    · rw [if_neg hp] at h
      simp only [assocFind, if_neg hp] at h
      exact ih h

/-- Under `clear_before_sync = true`, `sync_table` reports the target table
name and succeeds exactly when the fetch does: the drop-then-create always
succeeds (the drop removes any duplicate), the created table is found, and
per-row insert failures never fail the sync. -/
theorem sync_table_shape (cfg : SyncConfig)
    (fetch : SyncTable → Except SourceError FetchResult) (t : SyncTable)
    (db : Database) (st : StatusMap)
    (hclear : cfg.clear_before_sync = true) :
    (sync_table cfg fetch t db st).1.table = t.target_table ∧
    ((sync_table cfg fetch t db st).1.success = true ↔
      ∃ fr, fetch t = Except.ok fr) := by
  cases hf : fetch t with
  | error e =>
    refine ⟨by simp [sync_table, hf], ?_⟩
    simp [sync_table, hf]
  | ok fr =>
    have hnone : assocFind
        (db.tables.filter (fun p => ¬ (p.1 = t.target_table)))
        t.target_table = none :=
      assocFind_filter_self db.tables t.target_table
    have hfind : assocFind
        (db.tables.filter (fun p => ¬ (p.1 = t.target_table)) ++
          [(t.target_table,
            (⟨t.columns.map (fun c =>
                ({ name := c.target_name, col_type := c.col_type } : Column)),
              [], 1⟩ : Table))])
        t.target_table = some
          ⟨t.columns.map (fun c =>
              ({ name := c.target_name, col_type := c.col_type } : Column)),
            [], 1⟩ :=
      assocFind_append_some _ _ _ hnone
    simp only [decide_not] at hnone hfind
    refine ⟨?_, ?_⟩ <;>
      simp [sync_table, hf, hclear, Database.drop_table,
            Database.create_table_with_capacity, Database.get_table, hnone,
            hfind, sync_insert_phase]

/-- The per-position shape of `sync_all_go`: one result per table, in order,
each succeeding exactly when its own fetch does. -/
theorem sync_all_go_spec (cfg : SyncConfig)
    (fetch : SyncTable → Except SourceError FetchResult)
    (hclear : cfg.clear_before_sync = true) :
    ∀ (ts : List SyncTable) (db : Database) (st : StatusMap),
    (sync_all_go cfg fetch ts db st).1.length = ts.length ∧
    (∀ i, i < ts.length → ∃ r td,
      (sync_all_go cfg fetch ts db st).1[i]? = some r ∧ ts[i]? = some td ∧
      r.table = td.target_table ∧
      (r.success = true ↔ ∃ fr, fetch td = Except.ok fr)) := by
  intro ts
  induction ts with
  | nil =>
    intro db st
    exact ⟨rfl, fun i hi => absurd hi (Nat.not_lt_zero i)⟩
  | cons t ts ih =>
    intro db st
    constructor
    · simpa [sync_all_go] using
        (ih (sync_table cfg fetch t db st).2.1
            (sync_table cfg fetch t db st).2.2).1
    · intro i hi
      cases i with
      | zero =>
        refine ⟨(sync_table cfg fetch t db st).1, t, ?_, by simp,
          (sync_table_shape cfg fetch t db st hclear).1,
          (sync_table_shape cfg fetch t db st hclear).2⟩
        simp [sync_all_go]
      | succ j =>
        have hj : j < ts.length := Nat.lt_of_succ_lt_succ hi
        obtain ⟨r, td, h1, h2, h3, h4⟩ :=
          (ih (sync_table cfg fetch t db st).2.1
              (sync_table cfg fetch t db st).2.2).2 j hj
        refine ⟨r, td, ?_, ?_, h3, h4⟩
        · simpa [sync_all_go] using h1
        · simpa using h2

end Quickset

namespace Quickset

/-!
## Claim theorems
-/

/-- C10: converting any `Value` to the wire `JsonValue` and back through
`to_value` yields the original value: strings, bytes and the float payload
are carried unchanged. -/
theorem C10_value_roundtrip (v : Value) :
    (JsonValue.fromValue v).to_value = v := by
  cases v <;> rfl

/-- C6: for every declared column type, coercing a field that is the empty
string or the literal two-character sequence backslash-N yields `Value.null`,
whatever the std numeric parsers do. -/
theorem C6_null_sentinels (pI : String → Option Int) (pF : String → Option Nat)
    (ct : ColumnType) :
    parse_value pI pF "" ct = Value.null ∧
    parse_value pI pF "\\N" ct = Value.null := by
  cases ct <;> exact ⟨rfl, rfl⟩

/-- C4: on the row-id list returned by search, a supplied offset drops the
first `off` ids and a supplied limit then truncates to the next `lim`; an
offset at or past the end of the list yields the empty result whatever the
limit. -/
theorem C4_offset_limit (ids : List Nat) (off lim : Nat) :
    paginate ids (some off) (some lim) = (ids.drop off).take lim ∧
    (ids.length ≤ off → ∀ l, paginate ids (some off) l = []) := by
  constructor
  · by_cases h : off < ids.length
    · simp [paginate, h]
    · have hlen : ids.length ≤ off := Nat.le_of_not_lt h
      simp [paginate, h, List.drop_eq_nil_of_le hlen]
  · intro hlen l
    have h : ¬ off < ids.length := Nat.not_lt.mpr hlen
    cases l <;> simp [paginate, h]

/-- Witness for C4 at a concrete input: an offset past the end of `[1,2,3]`
yields the empty list. -/
theorem C4_offset_limit_witness : paginate [1, 2, 3] (some 5) (some 2) = [] :=
  (C4_offset_limit [1, 2, 3] 5 2).2 (by decide) (some 2)

/-- C3, evaluated at the failing input: with a non-empty mapping a
column-count mismatch is a Parse error as claimed, but with an empty mapping
the guard of the fields-to-strings branch can never hold, the fields are
zipped against no columns, and the line becomes an empty row instead of a row
of String values. -/
theorem C3_empty_mapping_drops_fields :
    parse_response noInt noFloat "a\tb" mappingEmptyTbl = Except.ok [[]] ∧
    parse_response noInt noFloat "a\tb" oneIntColTbl =
      Except.error (SourceError.parse
        "column count mismatch: expected 1, got 2") := by
  exact ⟨by decide, by decide⟩

/-- C1, counterexample: a successful sync of two rows records
`last_row_count = 2`; a subsequent sync whose fetch fails overwrites it with
0, so `last_row_count` is not left untouched from the prior successful sync. -/
theorem C1_counterexample :
    (assocFind (sync_table cfgOneTable fetchTwoRows oneIntColTbl emptyDb
        (init_status [oneIntColTbl])).2.2 "t").map
      (fun s => s.last_row_count) = some 2 ∧
    (assocFind (sync_table cfgOneTable fetchConnErr oneIntColTbl
        (sync_table cfgOneTable fetchTwoRows oneIntColTbl emptyDb
          (init_status [oneIntColTbl])).2.1
        (sync_table cfgOneTable fetchTwoRows oneIntColTbl emptyDb
          (init_status [oneIntColTbl])).2.2).2.2 "t").map
      (fun s => s.last_row_count) = some 0 := by
  exact ⟨by decide, by decide⟩

/-- C1, amended: when the fetch fails, `sync_table` returns failure with the
rendered source error, and the status entry for the target records that error
with `syncing` cleared and `last_row_count` overwritten with 0 (not preserved
from the prior successful sync). -/
theorem C1_fetch_error_status (cfg : SyncConfig)
    (fetch : SyncTable → Except SourceError FetchResult) (table : SyncTable)
    (db : Database) (st : StatusMap) (e : SourceError)
    (h : fetch table = Except.error e) :
    (sync_table cfg fetch table db st).1.success = false ∧
    (sync_table cfg fetch table db st).1.error =
      some (SourceError.to_string e) ∧
    (sync_table cfg fetch table db st).1.rows_synced = 0 ∧
    ∀ s, assocFind (sync_table cfg fetch table db st).2.2
        table.target_table = some s →
      s.syncing = false ∧ s.error = some (SourceError.to_string e) ∧
      s.last_row_count = 0 := by
  refine ⟨?_, ?_, ?_, ?_⟩
  · simp [sync_table, h]
  · simp [sync_table, h]
  · simp [sync_table, h]
  · intro s hs
    simp only [sync_table, h] at hs
    have hu := assocFind_update_status _ _ _ _ _ hs
    exact ⟨hu.2.2, hu.2.1, hu.1⟩

/-- Witness for C1's amended theorem at a concrete failing source. -/
theorem C1_fetch_error_status_witness :
    (sync_table cfgOneTable fetchConnErr oneIntColTbl emptyDb
      (init_status [oneIntColTbl])).1.success = false :=
  (C1_fetch_error_status cfgOneTable fetchConnErr oneIntColTbl emptyDb
    (init_status [oneIntColTbl]) (SourceError.connection "down") rfl).1

/-- C8: when the fetch fails, `sync_table` returns failure before the
database write phase: the database afterwards is exactly the database
before the call — no drop, no create, no insert. -/
theorem C8_fetch_error_db_unchanged (cfg : SyncConfig)
    (fetch : SyncTable → Except SourceError FetchResult) (table : SyncTable)
    (db : Database) (st : StatusMap) (e : SourceError)
    (h : fetch table = Except.error e) :
    (sync_table cfg fetch table db st).2.1 = db ∧
    (sync_table cfg fetch table db st).1.success = false := by
  simp [sync_table, h]

/-- C5: the column type names are resolved case-insensitively through the
twelve aliases, any name outside them resolves to no type, and a create-table
request containing such a name is rejected with the invalid-type error while
the database is left exactly as it was — no table is created. -/
theorem C5_create_table_aliases (n s : String) (req : CreateTableRequest)
    (db : Database) :
    ((strLower s = "int" ∨ strLower s = "integer" ∨ strLower s = "i64") →
      ColumnDef.to_column_type ⟨n, s⟩ = some ColumnType.int) ∧
    ((strLower s = "float" ∨ strLower s = "double" ∨ strLower s = "f64") →
      ColumnDef.to_column_type ⟨n, s⟩ = some ColumnType.float) ∧
    ((strLower s = "string" ∨ strLower s = "text" ∨ strLower s = "varchar") →
      ColumnDef.to_column_type ⟨n, s⟩ = some ColumnType.str) ∧
    ((strLower s = "bytes" ∨ strLower s = "blob" ∨ strLower s = "binary") →
      ColumnDef.to_column_type ⟨n, s⟩ = some ColumnType.bytes) ∧
    (strLower s ∉ typeAliases → ColumnDef.to_column_type ⟨n, s⟩ = none) ∧
    ((∃ c ∈ req.columns, ColumnDef.to_column_type c = none) →
      handle_create_table req db = (Except.error "invalid column type", db)) := by
  refine ⟨?_, ?_, ?_, ?_, ?_, ?_⟩
  · rintro (h | h | h) <;> simp [ColumnDef.to_column_type, h, typeOfName]
  · rintro (h | h | h) <;> simp [ColumnDef.to_column_type, h, typeOfName]
  · rintro (h | h | h) <;> simp [ColumnDef.to_column_type, h, typeOfName]
  · rintro (h | h | h) <;> simp [ColumnDef.to_column_type, h, typeOfName]
  · intro h
    exact typeOfName_eq_none (strLower s) h
  · intro h
    obtain ⟨c, hc, hnone⟩ := h
    have hcoll : collectOpt (fun c =>
        (ColumnDef.to_column_type c).map
          (fun ct => ({ name := c.name, col_type := ct } : Column)))
        req.columns = none :=
      collectOpt_eq_none _ _ ⟨c, hc, by rw [hnone]; rfl⟩
    rw [handle_create_table, hcoll]

/-- Witness for C5: a mixed-case alias resolves, and a request with an
unknown type name is rejected leaving an empty database empty. -/
theorem C5_create_table_aliases_witness :
    ColumnDef.to_column_type ⟨"c", "VarChar"⟩ = some ColumnType.str ∧
    handle_create_table badTypeReq emptyDb =
      (Except.error "invalid column type", emptyDb) :=
  ⟨(C5_create_table_aliases "c" "VarChar" badTypeReq emptyDb).2.2.1
      (Or.inr (Or.inr (by decide))),
   (C5_create_table_aliases "c" "VarChar" badTypeReq emptyDb).2.2.2.2.2
      ⟨⟨"a", "wat"⟩, by decide, by decide⟩⟩

/-- C9: a non-empty, non-sentinel scalar field that the std parser rejects is
coerced to `Value.null` for Int and Float columns rather than surfacing a
Parse error, and a `parse_response` failure can only be a Parse error caused
by a line whose field count mismatches a non-empty column mapping. -/
theorem C9_unparseable_scalar_null (pI : String → Option Int)
    (pF : String → Option Nat) (s : String)
    (h : ¬ (strTrim s = "" ∨ strTrim s = "\\N" ∨ strTrim s = "NULL")) :
    (pI (strTrim s) = none → parse_value pI pF s ColumnType.int = Value.null) ∧
    (pF (strTrim s) = none →
      parse_value pI pF s ColumnType.float = Value.null) ∧
    (∀ resp tbl e, parse_response pI pF resp tbl = Except.error e →
      tbl.columns ≠ [] ∧ ∃ l ∈ linesOf resp, strTrim l ≠ "" ∧
        (strSplit (strTrim l) '\t').length ≠ tbl.columns.length ∧
        ∃ m, e = SourceError.parse m) := by
  refine ⟨?_, ?_, ?_⟩
  · intro hp
    rw [parse_value, if_neg h, hp]
    rfl
  · intro hp
    rw [parse_value, if_neg h, hp]
    rfl
  · intro resp tbl e he
    exact parse_lines_error_shape pI pF tbl (linesOf resp) e he

/-- Witness for C9 at a concrete unparseable field. -/
theorem C9_unparseable_scalar_null_witness :
    parse_value noInt noFloat "abc" ColumnType.int = Value.null :=
  (C9_unparseable_scalar_null noInt noFloat "abc" (by decide)).1 rfl

/-- C7: `sync_all` returns one `SyncResult` per configured table, positioned
in the configured order, and each result succeeds exactly when its own
table's fetch does — a failure on one table never prevents a later table from
being synced. Stated under the default `clear_before_sync = true`, under
which the rebuild after a successful fetch always succeeds. -/
theorem C7_sync_all_per_table (cfg : SyncConfig)
    (fetch : SyncTable → Except SourceError FetchResult) (db : Database)
    (st : StatusMap) (hclear : cfg.clear_before_sync = true) :
    (sync_all cfg fetch db st).1.length = cfg.tables.length ∧
    (∀ i, i < cfg.tables.length → ∃ r td,
      (sync_all cfg fetch db st).1[i]? = some r ∧
      cfg.tables[i]? = some td ∧ r.table = td.target_table ∧
      (r.success = true ↔ ∃ fr, fetch td = Except.ok fr)) :=
  sync_all_go_spec cfg fetch hclear cfg.tables db st

/-- Witness for C7: two configured tables produce exactly two results even
though the fetch is shared; evaluated on the concrete two-table setup. -/
theorem C7_sync_all_per_table_witness :
    (sync_all cfgTwoTables fetchNoRows dbWithB
      (init_status [aSyncTbl, bSyncTbl])).1.length =
    cfgTwoTables.tables.length :=
  (C7_sync_all_per_table cfgTwoTables fetchNoRows dbWithB
    (init_status [aSyncTbl, bSyncTbl]) rfl).1

/-- C2, evaluated at the failing input: triggering a sync for table "a" in a
configuration that also lists table "b" reports results only for "a", yet
table "b" — previously holding one row — is dropped and rebuilt empty and its
status entry is stamped, because the handler runs `sync_all` over every
configured table and only filters the reported results. -/
theorem C2_sync_trigger_rebuilds_other_table :
    ((handle_sync_trigger cfgTwoTables fetchNoRows (some "a") dbWithB
        (init_status [aSyncTbl, bSyncTbl])).1.map (fun r => r.table) =
      ["a"]) ∧
    (Database.get_table (handle_sync_trigger cfgTwoTables fetchNoRows
        (some "a") dbWithB (init_status [aSyncTbl, bSyncTbl])).2.1 "b").map
      (fun t => t.rows.length) = some 0 ∧
    (Database.get_table dbWithB "b").map (fun t => t.rows.length) = some 1 ∧
    (assocFind (handle_sync_trigger cfgTwoTables fetchNoRows (some "a")
        dbWithB (init_status [aSyncTbl, bSyncTbl])).2.2 "b").map
      (fun s => s.last_sync) = some (some ()) := by
  refine ⟨by decide, by decide, by decide, by decide⟩

/-- Witness for C8: the database holding one populated table survives a
failing sync byte for byte. -/
theorem C8_fetch_error_db_unchanged_witness :
    (sync_table cfgTwoTables fetchConnErr bSyncTbl dbWithB
      (init_status [aSyncTbl, bSyncTbl])).2.1 = dbWithB :=
  (C8_fetch_error_db_unchanged cfgTwoTables fetchConnErr bSyncTbl dbWithB
    (init_status [aSyncTbl, bSyncTbl]) (SourceError.connection "down") rfl).1

end Quickset
